import Mathlib

/-!
# Shallow embedding of `src/uws.js` (uws-client-node)

This file embeds the connection/group/upgrade control plane of `src/uws.js`
into Lean 4 and proves the frozen claims about it.

Modelling conventions:
* JS functions stored in event slots are compared by reference (`!== noop`);
  we model a slot as `Slot`: `undef` (the property was never assigned, i.e.
  JS `undefined`), `noop` (the module-level `noop` function), `fn id` (a user
  function identified by a numeric id) or `onceWrap id` (the fresh wrapper
  closure that `once` installs around user function `id`; it is a distinct
  object, never `===` to the user function itself).
* Effects on the native engine and on the raw socket are recorded in explicit
  traces rather than performed.
* A JS `throw` is an `Except.error`; a JS function that cannot throw is a
  total Lean function.
-/

namespace UWS

/-- A JS value stored in one of the event-handler properties of a
`WebSocket`.  `undef` models JS `undefined` (property never assigned):
the class constructor of `WebSocket` assigns `noop` only to
`internalOnMessage`, `internalOnClose`, `onping` and `onpong`;
`internalOnOpen` and `internalOnError` are assigned (to `noop`) only in the
`WebSocketClient` subclass constructor. -/
inductive Slot
  | undef
  | noop
  | fn (id : Nat)
  | onceWrap (id : Nat)
  deriving DecidableEq, Repr

/-- The event names the `on` / `once` / `removeListener` /
`removeAllListeners` methods compare against; `other` stands for any other
string. -/
inductive EventName
  | message
  | close
  | ping
  | pong
  | open
  | error
  | other
  deriving DecidableEq, Repr

/-- State of a `WebSocket` (server variant) or `WebSocketClient` object:
the opaque engine handle `external` (a `Nat` id, `none` = JS `null`) and the
six event-handler properties.  `isClient` records whether the object is an
instance of `WebSocketClient` (`this instanceof WebSocketClient`). -/
structure WS where
  isClient : Bool
  external : Option Nat
  internalOnMessage : Slot
  internalOnClose : Slot
  onping : Slot
  onpong : Slot
  internalOnOpen : Slot
  internalOnError : Slot
  deriving DecidableEq, Repr

/-- Constructor `new WebSocket(external)` (src/uws.js:88-95): assigns `external` and sets
the four message/close/ping/pong slots to `noop`; `internalOnOpen` and
`internalOnError` are left unassigned (JS `undefined`). -/
def WebSocket.make (external : Option Nat) : WS :=
  { isClient := false
    external := external
    internalOnMessage := .noop
    internalOnClose := .noop
    onping := .noop
    onpong := .noop
    internalOnOpen := .undef
    internalOnError := .undef }

/-- Constructor `new WebSocketClient(uri)` (src/uws.js:328-334): `super(null)` then
`internalOnOpen = noop`, `internalOnError = noop` (the `native.connect`
side effect is external to this state). -/
def WebSocketClient.make : WS :=
  { WebSocket.make none with
    isClient := true
    internalOnOpen := .noop
    internalOnError := .noop }

/-- Constant `WebSocketClient.OPEN` (src/uws.js:579). -/
def OPEN : Nat := 1

/-- Constant `WebSocketClient.CLOSED` (src/uws.js:580). -/
def CLOSED : Nat := 0

/-- Getter `get readyState()` (src/uws.js:272-274): `this.external ? OPEN : CLOSED`. -/
def WS.readyState (ws : WS) : Nat :=
  if ws.external.isSome then OPEN else CLOSED

/-- The single error the event-registration methods can throw:
`Error(EE_ERROR)` with message "Registering more than one listener to a
WebSocket is not supported." (src/uws.js:5). -/
inductive RegError
  | duplicateListener
  deriving DecidableEq, Repr

/-- Method `on(eventName, f)` (src/uws.js:150-183).  Each recognised branch throws
`Error(EE_ERROR)` when the corresponding slot holds anything other than
`noop` (the comparison is `!== noop`, so an unassigned slot also fails it);
otherwise it stores `f`.  The `'error'` branch additionally requires
`this instanceof WebSocketClient`.  Unrecognised names fall through and
return `this`. -/
def WS.on (ws : WS) (e : EventName) (f : Nat) : Except RegError WS :=
  match e with
  | .message =>
      if ws.internalOnMessage ≠ .noop then .error .duplicateListener
      else .ok { ws with internalOnMessage := .fn f }
  | .close =>
      if ws.internalOnClose ≠ .noop then .error .duplicateListener
      else .ok { ws with internalOnClose := .fn f }
  | .ping =>
      if ws.onping ≠ .noop then .error .duplicateListener
      else .ok { ws with onping := .fn f }
  | .pong =>
      if ws.onpong ≠ .noop then .error .duplicateListener
      else .ok { ws with onpong := .fn f }
  | .open =>
      if ws.internalOnOpen ≠ .noop then .error .duplicateListener
      else .ok { ws with internalOnOpen := .fn f }
  | .error =>
      if ws.isClient then
        if ws.internalOnError ≠ .noop then .error .duplicateListener
        else .ok { ws with internalOnError := .fn f }
      else .ok ws
  | .other => .ok ws

/-- Method `once(eventName, f)` (src/uws.js:185-228).  Only the five names
`message`, `open`, `close`, `ping`, `pong` are recognised; each installs a
fresh wrapper closure (`onceWrap f`).  There is no `'error'` branch: for any
other name the method returns `this` unchanged. -/
def WS.once (ws : WS) (e : EventName) (f : Nat) : Except RegError WS :=
  match e with
  | .message =>
      if ws.internalOnMessage ≠ .noop then .error .duplicateListener
      else .ok { ws with internalOnMessage := .onceWrap f }
  | .open =>
      if ws.internalOnOpen ≠ .noop then .error .duplicateListener
      else .ok { ws with internalOnOpen := .onceWrap f }
  | .close =>
      if ws.internalOnClose ≠ .noop then .error .duplicateListener
      else .ok { ws with internalOnClose := .onceWrap f }
  | .ping =>
      if ws.onping ≠ .noop then .error .duplicateListener
      else .ok { ws with onping := .onceWrap f }
  | .pong =>
      if ws.onpong ≠ .noop then .error .duplicateListener
      else .ok { ws with onpong := .onceWrap f }
  | .error => .ok ws
  | .other => .ok ws

/-- Method `removeAllListeners(eventName)` (src/uws.js:230-247): with no argument
(`none`) resets the five message/open/close/ping/pong slots to `noop`; with
an argument resets only the matching slot.  The `internalOnError` slot is
never touched. -/
def WS.removeAllListeners (ws : WS) (e : Option EventName) : WS :=
  let ws := if e = none ∨ e = some .message
    then { ws with internalOnMessage := .noop } else ws
  let ws := if e = none ∨ e = some .open
    then { ws with internalOnOpen := .noop } else ws
  let ws := if e = none ∨ e = some .close
    then { ws with internalOnClose := .noop } else ws
  let ws := if e = none ∨ e = some .ping
    then { ws with onping := .noop } else ws
  let ws := if e = none ∨ e = some .pong
    then { ws with onpong := .noop } else ws
  ws

/-- Method `removeListener(eventName, cb)` (src/uws.js:249-262): resets the slot to
`noop` only when the stored value is `===` the given user function `cb`
(so a `once` wrapper is never removed this way).  No `'error'` branch. -/
def WS.removeListener (ws : WS) (e : EventName) (cb : Nat) : WS :=
  match e with
  | .message =>
      if ws.internalOnMessage = .fn cb then { ws with internalOnMessage := .noop } else ws
  | .open =>
      if ws.internalOnOpen = .fn cb then { ws with internalOnOpen := .noop } else ws
  | .close =>
      if ws.internalOnClose = .fn cb then { ws with internalOnClose := .noop } else ws
  | .ping =>
      if ws.onping = .fn cb then { ws with onping := .noop } else ws
  | .pong =>
      if ws.onpong = .fn cb then { ws with onpong := .noop } else ws
  | .error => ws
  | .other => ws

/-- Spec-side accessor: the slot of one event name (used to state claims;
`other` has no slot and reads as `noop`). -/
def WS.slot (ws : WS) : EventName → Slot
  | .message => ws.internalOnMessage
  | .close => ws.internalOnClose
  | .ping => ws.onping
  | .pong => ws.onpong
  | .open => ws.internalOnOpen
  | .error => ws.internalOnError
  | .other => .noop

/-- Spec-side helper: the five event names shared by `on`, `once`,
`removeListener` and `removeAllListeners`. -/
def coreEvent : EventName → Bool
  | .message => true
  | .close => true
  | .ping => true
  | .pong => true
  | .open => true
  | .error => false
  | .other => false

/-- Spec-side helper: the state with one event slot replaced. -/
def WS.setSlot (ws : WS) (e : EventName) (s : Slot) : WS :=
  match e with
  | .message => { ws with internalOnMessage := s }
  | .close => { ws with internalOnClose := s }
  | .ping => { ws with onping := s }
  | .pong => { ws with onpong := s }
  | .open => { ws with internalOnOpen := s }
  | .error => { ws with internalOnError := s }
  | .other => ws

/-! ## `send`, `ping`, `close`, `terminate` -/

/-- Constant `WebSocketClient.OPCODE_TEXT` (src/uws.js:576). -/
def OPCODE_TEXT : Nat := 1

/-- Constant `WebSocketClient.OPCODE_BINARY` (src/uws.js:577). -/
def OPCODE_BINARY : Nat := 2

/-- Constant `WebSocketClient.OPCODE_PING` (src/uws.js:578). -/
def OPCODE_PING : Nat := 9

/-- The payload handed to `send`: a JS string or a non-string value such as
a Buffer (only `typeof message` matters to the control flow). -/
inductive Payload
  | str (s : String)
  | buf (id : Nat)
  deriving DecidableEq, Repr

/-- JS test `typeof message === 'string'`. -/
def Payload.isString : Payload → Bool
  | .str _ => true
  | .buf _ => false

/-- The `options` argument of `send`: absent/null, an options object whose
`binary` field is a boolean or anything else (`none`), or a function passed
in the options position (the `typeof options === 'function'` case). -/
inductive OptionsArg
  | noArg
  | obj (binary : Option Bool)
  | func (cbId : Nat)
  deriving DecidableEq, Repr

/-- The completion argument the code passes to the native engine: the code
only ever passes `() => { process.nextTick(cb) }`, i.e. a closure that
defers the user callback `cb` to the next scheduling turn
(src/uws.js:312-314 and 358-360). -/
inductive Completion
  | nextTickOf (cbId : Nat)
  deriving DecidableEq, Repr

/-- One call to `native.server.send` / `native.client.send` performed by
`send` (the `clientVariant` flag records which entry point). -/
structure EngineSend where
  clientVariant : Bool
  handle : Nat
  payload : Payload
  opcode : Nat
  completion : Option Completion
  compress : Bool
  deriving DecidableEq, Repr

/-- The message of the error object a closed `send` hands to its callback:
`new Error('not opened')` (src/uws.js:316 and 362). -/
def notOpenedMsg : String := "not opened"

/-- Everything observable about one `send` call: the state afterwards, the
at-most-one engine call it forwarded, and the at-most-one callback it
invoked synchronously (callback id paired with the error message passed). -/
structure SendEffects where
  ws : WS
  engineCall : Option EngineSend
  syncCbCall : Option (Nat × String)
  deriving DecidableEq, Repr

/-- Method `send(message, options, cb, compress)` (src/uws.js:303-318 server
variant, 349-364 client variant; the two bodies differ only in the native
entry point, recorded via `ws.isClient`).  When `external` is present:
normalise a function passed as `options` into `cb`, compute the binary flag
(`options.binary` if boolean, else `typeof message !== 'string'`), and call
the native send with the callback wrapped in `process.nextTick`.  When
`external` is absent: invoke `cb` (the third argument — the options
normalisation is inside the open branch) synchronously with
`new Error('not opened')` if supplied, else do nothing.  No path throws. -/
def WS.send (ws : WS) (message : Payload) (options : OptionsArg)
    (cb : Option Nat) (compress : Bool) : SendEffects :=
  match ws.external with
  | some ext =>
      let cb' : Option Nat := match options with
        | .func c => some c
        | _ => cb
      let options' : OptionsArg := match options with
        | .func _ => .noArg
        | o => o
      let binary : Bool := match options' with
        | .obj (some b) => b
        | _ => !message.isString
      { ws := ws
        engineCall := some
          { clientVariant := ws.isClient
            handle := ext
            payload := message
            opcode := if binary then OPCODE_BINARY else OPCODE_TEXT
            completion := cb'.map .nextTickOf
            compress := compress }
        syncCbCall := none }
  | none =>
      match cb with
      | some c => { ws := ws, engineCall := none, syncCbCall := some (c, notOpenedMsg) }
      | none => { ws := ws, engineCall := none, syncCbCall := none }

/-- One call to `native.server.terminate` / `native.client.terminate` or
`native.server.close` / `native.client.close`. -/
inductive TeardownCall
  | terminateCall (clientVariant : Bool) (handle : Nat)
  | closeCall (clientVariant : Bool) (handle : Nat) (code : Option Nat) (reason : Option String)
  deriving DecidableEq, Repr

/-- Method `terminate()` (src/uws.js:296-301 server variant, 342-347 client
variant): if `external` is present, call the native terminate and null the
handle; otherwise do nothing. -/
def WS.terminate (ws : WS) : WS × Option TeardownCall :=
  match ws.external with
  | some ext => ({ ws with external := none }, some (.terminateCall ws.isClient ext))
  | none => (ws, none)

/-- Method `close(code, data)` (src/uws.js:320-325 server variant, 366-371 client
variant): if `external` is present, call the native close and null the
handle; otherwise do nothing. -/
def WS.close (ws : WS) (code : Option Nat) (reason : Option String) :
    WS × Option TeardownCall :=
  match ws.external with
  | some ext => ({ ws with external := none }, some (.closeCall ws.isClient ext code reason))
  | none => (ws, none)

/-! ## `Server.handleUpgrade` -/

/-- The handshake-relevant headers of an upgrade request. -/
structure Headers where
  secWebSocketKey : Option String
  secWebSocketExtensions : Option String
  secWebSocketProtocol : Option String
  deriving DecidableEq, Repr

/-- The raw socket handed to `handleUpgrade`: `_isNative` marks a socket
already attached to the engine (its `external` is the engine handle);
`handlePresent` is the truthiness of `socket.ssl ? socket._parent._handle
: socket._handle`; `fd` is that handle's file descriptor. -/
structure RawSocket where
  isNative : Bool
  external : Option Nat
  ssl : Bool
  handlePresent : Bool
  fd : Int
  deriving DecidableEq, Repr

/-- The argument `native.transfer` receives for the socket handle:
`socketHandle.fd === -1 ? socketHandle : socketHandle.fd`
(src/uws.js:517). -/
inductive TransferArg
  | handleObject
  | fileDescriptor (fd : Int)
  deriving DecidableEq, Repr

/-- One observable step of `handleUpgrade`, in execution order. -/
inductive HUAction
  | setUpgradeReq
  | setUpgradeCallback
  | setNoDelay (b : Bool)
  | transfer (arg : TransferArg) (sslState : Bool)
  | registerOnClose
  | destroy
  deriving DecidableEq, Repr

/-- A JS `ReferenceError`: reading an identifier that is not in scope. -/
inductive RefError
  | secKeyNotDefined
  deriving DecidableEq, Repr

/-- Result of `handleUpgrade`: the actions performed before returning or
before an uncaught `ReferenceError` (`err`) aborted the call. -/
structure HUResult where
  actions : List HUAction
  err : Option RefError
  deriving DecidableEq, Repr

/-- JS truthiness of the optional header string (`secKey &&` — absent or
empty is falsy). -/
def jsTruthyStr : Option String → Bool
  | none => false
  | some s => s ≠ ""

/-- JS expression `secKey.length` (only consulted after truthiness, so the default for
`none` is irrelevant to the control flow). -/
def keyLength : Option String → Nat
  | none => 0
  | some s => s.length

/-- Method `Server.handleUpgrade(request, socket, upgradeHead, callback)`
(src/uws.js:504-528).

Native branch (`socket._isNative`): if `this.serverGroup` is present, the
code assigns `_upgradeReq = request` and `this._upgradeCallback`, then
evaluates the arguments of `native.upgrade(this.serverGroup,
socket.external, secKey, ...)` — but `secKey` is a `const` declared only
inside the *else* branch (src/uws.js:512), so under the file's
`'use strict'` the identifier is unbound here and a `ReferenceError`
propagates before `native.upgrade` is invoked.

Non-native branch: read `sec-websocket-key`; if the socket handle is
present and the key is truthy with length 24, set no-delay, transfer the
handle to the engine (the actual `native.upgrade` is deferred to the
socket's `'close'` event handler registered here), and in all cases finish
with `socket.destroy()`.  No HTTP response is ever written by this
method. -/
def handleUpgrade (serverGroup : Option Nat) (noDelay : Bool)
    (headers : Headers) (socket : RawSocket) : HUResult :=
  if socket.isNative then
    match serverGroup with
    | some _ =>
        { actions := [.setUpgradeReq, .setUpgradeCallback]
          err := some .secKeyNotDefined }
    | none => { actions := [], err := none }
  else
    let secKey := headers.secWebSocketKey
    if socket.handlePresent && jsTruthyStr secKey && (keyLength secKey == 24) then
      { actions :=
          [ .setNoDelay noDelay
          , .transfer (if socket.fd == -1 then .handleObject else .fileDescriptor socket.fd)
              socket.ssl
          , .registerOnClose
          , .destroy ]
        err := none }
    else
      { actions := [.destroy], err := none }

/-! ## The constructor's `'upgrade'` listener: path filter and `verifyClient` -/

/-- JS expression `request.url.split('?')[0]`: the prefix before the first
occurrence of the separator (the whole string when absent). -/
def splitFirst (c : Char) (s : String) : String :=
  String.mk (s.data.takeWhile (· ≠ c))

/-- The path the upgrade listener compares against the filter:
`request.url.split('?')[0].split('#')[0]` (src/uws.js:427). -/
def requestPath (url : String) : String :=
  splitFirst '#' (splitFirst '?' url)

/-- Path normalisation in the `Server` constructor (src/uws.js:410-412):
a truthy `options.path` not starting with `'/'` gets one prepended. -/
def normalizePath (p : Option String) : Option String :=
  match p with
  | none => none
  | some s => if s ≠ "" && s.get 0 ≠ '/' then some ("/" ++ s) else some s

/-- JS test `!options.path || options.path == request.url.split('?')[0].split('#')[0]`
(src/uws.js:427): an absent or empty path filter matches everything. -/
def pathMatches (path : Option String) (url : String) : Bool :=
  match path with
  | none => true
  | some p => if p = "" then true else p == requestPath url

/-- The configured `verifyClient` option, parametrised by the verdict the
predicate will deliver for the request under consideration: `sync` is a
one-argument predicate returning a boolean; `async` is a two-argument
predicate whose callback receives `(result, code, name)` — `code`/`name`
are `none` when the predicate's callback omits them (JS `undefined`). -/
inductive VerifyClient
  | sync (result : Bool)
  | async (result : Bool) (code : Option Nat) (name : Option String)
  deriving DecidableEq, Repr

/-- How a JS number-or-undefined prints inside the string concatenation of
`abortConnection` (src/uws.js:12-14): `'HTTP/1.1 ' + code + ' ' + name`. -/
def jsShowNum : Option Nat → String
  | none => "undefined"
  | some n => toString n

/-- How a JS string-or-undefined prints inside the same concatenation. -/
def jsShowStr : Option String → String
  | none => "undefined"
  | some s => s

/-- Outcome of the constructor's `'upgrade'` listener for one request:
`proceed` means `this.handleUpgrade(request, socket, head, emitConnection)`
was called (the only route to a `'connection'` event); `abort code name`
means `abortConnection(socket, code, name)` wrote the status line
`HTTP/1.1 code name` and nothing else happened; `ignore` means the listener
returned without touching the socket. -/
inductive UpgradeOutcome
  | proceed
  | abort (code : String) (name : String)
  | ignore
  deriving DecidableEq, Repr

/-- The `verifyClient` dispatch inside the `'upgrade'` listener
(src/uws.js:428-452), reached when the path filter matched.  A missing
predicate or an allowing verdict proceeds to `handleUpgrade`; a rejecting
synchronous predicate aborts with the literal `400` / `'Client verification
failed'` (src/uws.js:447); a rejecting asynchronous predicate aborts with
exactly the `code` and `name` its callback supplied (src/uws.js:440) — no
default is substituted. -/
def dispatchVerify (vc : Option VerifyClient) : UpgradeOutcome :=
  match vc with
  | none => .proceed
  | some (.sync true) => .proceed
  | some (.sync false) => .abort "400" "Client verification failed"
  | some (.async true _ _) => .proceed
  | some (.async false code name) => .abort (jsShowNum code) (jsShowStr name)

/-- The whole `'upgrade'` listener body (src/uws.js:424-458), as a function
of the normalised path filter, the configured `verifyClient`, the current
`_lastUpgradeListener` flag and the request URL: on a path match run the
`verifyClient` dispatch; on a mismatch abort with `400` /
`'URL not supported'` only when the flag is set, else silently ignore. -/
def upgradeDispatch (path : Option String) (vc : Option VerifyClient)
    (lastUpgradeListener : Bool) (url : String) : UpgradeOutcome :=
  if pathMatches path url then dispatchVerify vc
  else if lastUpgradeListener then .abort "400" "URL not supported"
  else .ignore

/-! ## The `_lastUpgradeListener` flag -/

/-- Event names registered on the HTTP server that the constructor's
`'newListener'` hook inspects. -/
inductive HttpEvent
  | upgrade
  | otherEvent
  deriving DecidableEq, Repr

/-- The `'newListener'` hook installed at src/uws.js:418-422: each
registration of an `'upgrade'` listener on the HTTP server (Node's
`EventEmitter` emits `'newListener'` before adding any listener) sets
`_lastUpgradeListener` to `false`; other event names leave it unchanged. -/
def newListenerHook (flag : Bool) (e : HttpEvent) : Bool :=
  if e = .upgrade then false else flag

/-- The flag at the end of the `Server` constructor: it starts `true`
(src/uws.js:401), the `'newListener'` hook is installed (src/uws.js:418),
and then the constructor registers its *own* `'upgrade'` listener
(src/uws.js:424), which fires the hook. -/
def flagAfterCtor : Bool := newListenerHook true .upgrade

/-- The flag after any further listener registrations on the HTTP server
following the constructor. -/
def flagAfter (laterRegs : List HttpEvent) : Bool :=
  laterRegs.foldl newListenerHook flagAfterCtor

/-! ## `Server.close` -/

/-- The `Server` state that `close` touches. -/
structure ServerState where
  serverGroup : Option Nat
  upgradeListenerSet : Bool
  httpServerPresent : Bool
  passedHttpServer : Bool
  deriving DecidableEq, Repr

/-- Observable effects of one `Server.close(cb)` call. -/
structure CloseTrace where
  removedUpgradeListener : Bool
  httpCloseCalled : Bool
  groupCloseCalls : List Nat
  timeoutScheduled : Bool
  deriving DecidableEq, Repr

/-- Method `Server.close(cb)` (src/uws.js:542-560): when the upgrade listener and
HTTP server exist, remove the listener and (unless the HTTP server was
passed in) close it; when `serverGroup` is present, call
`native.server.group.close(this.serverGroup)` and null the field; when a
callback is supplied, schedule it on a timeout.  Nothing in the body can
throw. -/
def ServerState.closeServer (s : ServerState) (cbGiven : Bool) :
    ServerState × CloseTrace :=
  let removed := s.upgradeListenerSet && s.httpServerPresent
  let httpClosed := removed && !s.passedHttpServer
  match s.serverGroup with
  | some g =>
      ({ s with serverGroup := none },
       { removedUpgradeListener := removed
         httpCloseCalled := httpClosed
         groupCloseCalls := [g]
         timeoutScheduled := cbGiven })
  | none =>
      (s,
       { removedUpgradeListener := removed
         httpCloseCalled := httpClosed
         groupCloseCalls := []
         timeoutScheduled := cbGiven })

/-! ## The disconnection handlers and the next-tick queue -/

/-- Observable events while running a disconnection callback and the tick
queue: the handler nulling `webSocket.external`, the
`native.clearUserData(external)` call, and the deferred invocation of
`internalOnClose` — recording the `readyState` the user handler observes at
that moment, and the close code and message it receives. -/
inductive LoopEv
  | setExternalNull
  | clearUserData (handle : Nat)
  | invokeCloseHandler (readyStateSeen : Nat) (code : Nat) (message : String)
  deriving DecidableEq, Repr

/-- A thunk sitting in the `process.nextTick` queue. -/
inductive TickTask
  | invokeClose (code : Nat) (message : String)
  deriving DecidableEq, Repr

/-- The event loop state the disconnection handlers act on: the `WebSocket`
object, the pending next-tick queue, and the log of observable events. -/
structure Loop where
  ws : WS
  tickQueue : List TickTask
  log : List LoopEv
  deriving DecidableEq, Repr

/-- The body shared verbatim by the server group's `onDisconnection`
handler (src/uws.js:461-469) and the client group's (src/uws.js:61-69):
`webSocket.external = null`, then `process.nextTick(() =>
webSocket.internalOnClose(code, message))`, then
`native.clearUserData(external)`.  The user close handler is only queued
here, never invoked. -/
def onDisconnectionBody (l : Loop) (ext : Nat) (code : Nat) (message : String) : Loop :=
  let l := { l with
    ws := { l.ws with external := none }
    log := l.log ++ [LoopEv.setExternalNull] }
  let l := { l with tickQueue := l.tickQueue ++ [TickTask.invokeClose code message] }
  { l with log := l.log ++ [LoopEv.clearUserData ext] }

/-- Run a list of pending next-tick tasks in order against a `WebSocket`
whose state the tasks do not change: each `invokeClose` task calls the user
close handler, which observes `readyState` as derived from the state at
that moment. -/
def runTasks (ws : WS) (log : List LoopEv) : List TickTask → List LoopEv
  | [] => log
  | .invokeClose code message :: rest =>
      runTasks ws (log ++ [.invokeCloseHandler ws.readyState code message]) rest

/-- Run the pending next-tick queue to exhaustion. -/
def runTicks (l : Loop) : Loop :=
  { l with tickQueue := [], log := runTasks l.ws l.log l.tickQueue }

/-! ## Spec-side helpers and concrete fixtures -/

/-- The callback `send` effectively uses on its open path: a function
passed in the options position displaces the third argument. -/
def effectiveCb (o : OptionsArg) (cb : Option Nat) : Option Nat :=
  match o with
  | .func c => some c
  | _ => cb

/-- Spec-side: the handshake key is absent or does not have exactly 24
characters. -/
def badKeyB : Option String → Bool
  | none => true
  | some s => s.length != 24

/-- Fixture: a client connection whose `'error'` slot holds user function
`5` (the state `on('error', f5)` produces on a fresh client). -/
def clientWithErrorHandler : WS :=
  { WebSocketClient.make with internalOnError := .fn 5 }

/-- Fixture: an open server-side connection whose `'message'` slot holds
user function `2`. -/
def serverWithMessageHandler : WS :=
  { WebSocket.make (some 1) with internalOnMessage := .fn 2 }

/-! ## Helper lemmas -/

theorem terminate_external_none (ws : WS) : (ws.terminate).1.external = none := by
  unfold WS.terminate
  cases h : ws.external <;> simp [h]

theorem close_external_none (ws : WS) (code : Option Nat) (reason : Option String) :
    (ws.close code reason).1.external = none := by
  unfold WS.close
  cases h : ws.external <;> simp [h]

theorem send_on_closed (ws : WS) (h : ws.external = none) (p : Payload)
    (o : OptionsArg) (cb : Option Nat) (comp : Bool) :
    ws.send p o cb comp
      = { ws := ws, engineCall := none
          syncCbCall := cb.map (fun c => (c, notOpenedMsg)) } := by
  unfold WS.send
  rw [h]
  cases cb <;> rfl

theorem readyState_closed (ws : WS) (h : ws.external = none) :
    ws.readyState = CLOSED := by
  simp [WS.readyState, h]

theorem foldl_hook_false : ∀ l : List HttpEvent, l.foldl newListenerHook false = false
  | [] => rfl
  | e :: t => by
      have h : newListenerHook false e = false := by cases e <;> rfl
      simpa [List.foldl, h] using foldl_hook_false t

/-! ## Claims -/

/-- C1: for every connection (server or client variant), after
`terminate()` or `close()` has returned, `readyState` reads `CLOSED`, and
every subsequent `send(payload, options, cb)` forwards nothing to the
engine and does not throw (the model of `send` is a total function with no
error result): a supplied completion callback is invoked with the
`'not opened'` error, otherwise the call is a silent no-op — and the state
is left unchanged, so the same holds for all later sends. -/
theorem claim_C1_send_after_teardown :
    ∀ (ws : WS) (p : Payload) (o : OptionsArg) (cb : Option Nat) (comp : Bool)
      (code : Option Nat) (reason : Option String),
    ((ws.terminate).1.readyState = CLOSED
      ∧ ((ws.terminate).1.send p o cb comp).engineCall = none
      ∧ ((ws.terminate).1.send p o cb comp).syncCbCall
          = cb.map (fun c => (c, notOpenedMsg))
      ∧ ((ws.terminate).1.send p o cb comp).ws = (ws.terminate).1)
    ∧ ((ws.close code reason).1.readyState = CLOSED
      ∧ ((ws.close code reason).1.send p o cb comp).engineCall = none
      ∧ ((ws.close code reason).1.send p o cb comp).syncCbCall
          = cb.map (fun c => (c, notOpenedMsg))
      ∧ ((ws.close code reason).1.send p o cb comp).ws = (ws.close code reason).1) := by
  intro ws p o cb comp code reason
  have ht := terminate_external_none ws
  have hc := close_external_none ws code reason
  rw [send_on_closed _ ht, send_on_closed _ hc]
  exact ⟨⟨readyState_closed _ ht, rfl, rfl, rfl⟩,
         ⟨readyState_closed _ hc, rfl, rfl, rfl⟩⟩

/-- C2 counterexample: the claim says the completion callback is never
invoked synchronously during the `send` call itself, but on the closed
path `send` invokes `cb(new Error('not opened'))` inline
(src/uws.js:315-317): a closed connection with callback `3` records a
synchronous callback invocation. -/
theorem claim_C2_counterexample :
    ((WebSocket.make none).send (.str "hi") .noArg (some 3) false).syncCbCall
      = some (3, notOpenedMsg) := rfl

/-- C2 amended: on the open path the completion handed to the engine is
always the `process.nextTick` wrapper of the callback, and no synchronous
invocation happens; on the closed path a supplied callback (third
argument) is invoked synchronously with the `'not opened'` error during
the `send` call — it is not deferred. -/
theorem claim_C2_amended_callback_timing :
    ∀ (ws : WS) (p : Payload) (o : OptionsArg) (cb : Option Nat) (comp : Bool),
    (ws.external.isSome = true → (ws.send p o cb comp).syncCbCall = none)
    ∧ (ws.external = none →
        (ws.send p o cb comp).syncCbCall = cb.map (fun c => (c, notOpenedMsg)))
    ∧ (∀ ec, (ws.send p o cb comp).engineCall = some ec →
        ec.completion = (effectiveCb o cb).map Completion.nextTickOf) := by
  intro ws p o cb comp
  refine ⟨?_, ?_, ?_⟩
  · intro h
    unfold WS.send
    cases hx : ws.external with
    | none => rw [hx] at h; simp at h
    | some ext => simp
  · intro h
    rw [send_on_closed _ h]
  · intro ec hec
    unfold WS.send at hec
    cases hx : ws.external with
    | none =>
        rw [hx] at hec
        cases cb <;> simp at hec
    | some ext =>
        rw [hx] at hec
        simp at hec
        rw [← hec]
        cases o <;> rfl

/-- Witness for the amended C2 at concrete inputs: an open connection's
`send` makes no synchronous callback call, a closed connection's `send`
calls back synchronously with `'not opened'`, and the open call's engine
completion is the `nextTick` wrapper of callback `0`. -/
theorem claim_C2_amended_callback_timing_witness :
    (((WebSocket.make (some 1)).send (.str "a") .noArg (some 0) false).syncCbCall = none)
    ∧ (((WebSocket.make none).send (.str "a") .noArg (some 0) false).syncCbCall
        = some (0, notOpenedMsg)) := by
  constructor
  · exact (claim_C2_amended_callback_timing (WebSocket.make (some 1))
      (.str "a") .noArg (some 0) false).1 rfl
  · exact (claim_C2_amended_callback_timing (WebSocket.make none)
      (.str "a") .noArg (some 0) false).2.1 rfl

/-- C10: on a server-variant connection (`isClient = false`),
`on('error', f)` and `once('error', f)` register nothing and never throw:
both return the connection unchanged, so no duplicate-listener error can
arise for `'error'` and no `'error'` handler can be installed through
`on`/`once`. -/
theorem claim_C10_server_error_registration_noop :
    ∀ (ws : WS) (f : Nat), ws.isClient = false →
    ws.on .error f = .ok ws ∧ ws.once .error f = .ok ws := by
  intro ws f h
  exact ⟨by simp [WS.on, h], rfl⟩

/-- Witness for C10: a fresh open server-side connection. -/
theorem claim_C10_server_error_registration_noop_witness :
    (WebSocket.make (some 1)).on .error 4 = .ok (WebSocket.make (some 1))
    ∧ (WebSocket.make (some 1)).once .error 4 = .ok (WebSocket.make (some 1)) :=
  claim_C10_server_error_registration_noop (WebSocket.make (some 1)) 4 rfl

/-- C3 counterexample: the claim says `once(event, f)` while a non-default
handler is registered always throws the duplicate-listener error, but
`once` has no `'error'` branch (src/uws.js:185-228): on a client
connection reachable via `on('error', 5)` — whose `'error'` slot therefore
holds a non-default handler — `once('error', 7)` returns normally with the
handlers unchanged instead of throwing. -/
theorem claim_C3_counterexample :
    (WebSocketClient.make).on .error 5 = .ok clientWithErrorHandler
    ∧ clientWithErrorHandler.slot .error ≠ .noop
    ∧ clientWithErrorHandler.once .error 7 = .ok clientWithErrorHandler := by
  refine ⟨rfl, by decide, rfl⟩

/-- C3 amended: for the five event names handled uniformly
(`message`/`close`/`ping`/`pong`/`open`), `on` and `once` throw the
duplicate-listener error exactly when the slot holds anything other than
the default `noop` (leaving state untouched, since the throw precedes the
assignment), and after `removeAllListeners(event)` — or
`removeListener(event, f)` with `f` the registered handler — `on(event,g)`
succeeds and installs `g`.  For `'error'`, only `on` on a client variant
throws on a duplicate; `once('error', ·)` never throws and registers
nothing. -/
theorem claim_C3_amended_duplicate_listener :
    ∀ (ws : WS) (e : EventName) (f g : Nat),
    (coreEvent e = true → ws.slot e ≠ .noop →
        ws.on e f = .error .duplicateListener
        ∧ ws.once e f = .error .duplicateListener)
    ∧ (ws.isClient = true → ws.slot .error ≠ .noop →
        ws.on .error f = .error .duplicateListener)
    ∧ (ws.once .error f = .ok ws)
    ∧ (coreEvent e = true →
        (ws.removeAllListeners (some e)).on e g
          = .ok ((ws.removeAllListeners (some e)).setSlot e (.fn g)))
    ∧ (coreEvent e = true → ws.slot e = .fn f →
        (ws.removeListener e f).on e g
          = .ok ((ws.removeListener e f).setSlot e (.fn g))) := by
  intro ws e f g
  refine ⟨?_, ?_, rfl, ?_, ?_⟩
  · intro hcore hslot
    cases e <;> simp_all [coreEvent, WS.slot, WS.on, WS.once]
  · intro hc hslot
    simp_all [WS.slot, WS.on]
  · intro hcore
    cases e <;>
      simp_all [coreEvent, WS.on, WS.removeAllListeners, WS.setSlot]
  · intro hcore hslot
    cases e <;>
      simp_all [coreEvent, WS.slot, WS.on, WS.removeListener, WS.setSlot]

/-- Witness for the amended C3 at concrete inputs: on a server connection
whose `'message'` slot holds handler `2`, both `on('message', 9)` and
`once('message', 9)` throw; on a client with an `'error'` handler,
`on('error', 9)` throws while `once('error', 9)` is a no-op; and after
`removeAllListeners('message')` or `removeListener('message', 2)`,
`on('message', 9)` installs handler `9`. -/
theorem claim_C3_amended_duplicate_listener_witness :
    (serverWithMessageHandler.on .message 9 = .error .duplicateListener
      ∧ serverWithMessageHandler.once .message 9 = .error .duplicateListener)
    ∧ (clientWithErrorHandler.on .error 9 = .error .duplicateListener)
    ∧ (clientWithErrorHandler.once .error 9 = .ok clientWithErrorHandler)
    ∧ ((serverWithMessageHandler.removeAllListeners (some .message)).on .message 9
        = .ok ((serverWithMessageHandler.removeAllListeners (some .message)).setSlot
            .message (.fn 9)))
    ∧ ((serverWithMessageHandler.removeListener .message 2).on .message 9
        = .ok ((serverWithMessageHandler.removeListener .message 2).setSlot
            .message (.fn 9))) := by
  refine ⟨(claim_C3_amended_duplicate_listener serverWithMessageHandler .message 2 9).1
            rfl (by decide),
         (claim_C3_amended_duplicate_listener clientWithErrorHandler .error 2 9).2.1
            rfl (by decide),
         (claim_C3_amended_duplicate_listener clientWithErrorHandler .error 9 9).2.2.1,
         (claim_C3_amended_duplicate_listener serverWithMessageHandler .message 2 9).2.2.2.1
            rfl,
         (claim_C3_amended_duplicate_listener serverWithMessageHandler .message 2 9).2.2.2.2
            rfl (by decide)⟩

/-- C4: a non-native upgrade request whose `sec-websocket-key` header is
absent or not exactly 24 characters long, or whose socket has no handle,
makes `handleUpgrade` destroy the socket and do nothing else: no HTTP
response, no `native.transfer`, no `native.upgrade` (the full action list
is exactly `[destroy]` and no error escapes). -/
theorem claim_C4_invalid_handshake_destroys_socket :
    ∀ (grp : Option Nat) (nd : Bool) (hdrs : Headers) (sock : RawSocket),
    sock.isNative = false →
    (sock.handlePresent = false ∨ badKeyB hdrs.secWebSocketKey = true) →
    handleUpgrade grp nd hdrs sock = { actions := [.destroy], err := none } := by
  intro grp nd hdrs sock hn hbad
  unfold handleUpgrade
  rw [hn]
  simp only [Bool.false_eq_true, if_false]
  have hcond : (sock.handlePresent && jsTruthyStr hdrs.secWebSocketKey
      && (keyLength hdrs.secWebSocketKey == 24)) = false := by
    rcases hbad with h | h
    · simp [h]
    · cases hk : hdrs.secWebSocketKey with
      | none => simp [jsTruthyStr]
      | some s =>
          rw [hk] at h
          simp only [badKeyB, bne_iff_ne, ne_eq] at h
          have : (keyLength (some s) == 24) = false := by
            simp [keyLength]
            omega
          simp [this]
  rw [hcond]
  rfl

/-- Witness for C4: a non-native socket with a present handle but no
`sec-websocket-key` header is destroyed without transfer or response. -/
theorem claim_C4_invalid_handshake_destroys_socket_witness :
    handleUpgrade none true
      { secWebSocketKey := none, secWebSocketExtensions := none
        secWebSocketProtocol := none }
      { isNative := false, external := none, ssl := false
        handlePresent := true, fd := 3 }
      = { actions := [.destroy], err := none } :=
  claim_C4_invalid_handshake_destroys_socket none true
    { secWebSocketKey := none, secWebSocketExtensions := none
      secWebSocketProtocol := none }
    { isNative := false, external := none, ssl := false
      handlePresent := true, fd := 3 }
    rfl (Or.inr rfl)

/-- C5: the claim says a path-mismatched upgrade request is aborted with
`400 URL not supported` exactly when this server's upgrade listener is the
last one registered; but the constructor registers its *own* `'upgrade'`
listener after installing the `'newListener'` hook, so
`_lastUpgradeListener` is false by the end of the constructor and stays
false forever — the abort branch is unreachable, and a mismatched request
is silently ignored even when no other upgrade listener exists. -/
theorem claim_C5_url_abort_unreachable :
    (∀ laterRegs : List HttpEvent, flagAfter laterRegs = false)
    ∧ upgradeDispatch (normalizePath (some "/chat")) none (flagAfter []) "/other"
        = .ignore := by
  constructor
  · intro regs
    have h : flagAfterCtor = false := rfl
    unfold flagAfter
    rw [h]
    exact foldl_hook_false regs
  · decide

/-- C6 counterexample: the claim says a rejecting `verifyClient` aborts
with the supplied status code and reason, *defaulting to `400 Client
verification failed` when none are supplied*; but the asynchronous path
passes the callback's `code`/`name` straight to `abortConnection`
(src/uws.js:440), so an async predicate that calls back `(false)` with no
code or reason produces the status line fields `undefined undefined`, not
the claimed default. -/
theorem claim_C6_counterexample :
    dispatchVerify (some (.async false none none)) = .abort "undefined" "undefined"
    ∧ dispatchVerify (some (.async false none none))
        ≠ .abort "400" "Client verification failed" := by
  refine ⟨rfl, by decide⟩

/-- C6 amended: a rejecting synchronous predicate always aborts with the
fixed `400` / `Client verification failed` (the sync path cannot carry a
custom code or reason); a rejecting asynchronous predicate aborts with
exactly the code and reason its callback supplied, rendered as JS string
concatenation renders them (`undefined` when omitted), with no default
substituted; in both cases `handleUpgrade` is not reached, so no
`connection` event can be emitted for the request. -/
theorem claim_C6_amended_reject_outcomes :
    ∀ (code : Option Nat) (name : Option String),
    dispatchVerify (some (.sync false)) = .abort "400" "Client verification failed"
    ∧ dispatchVerify (some (.async false code name))
        = .abort (jsShowNum code) (jsShowStr name)
    ∧ dispatchVerify (some (.sync false)) ≠ .proceed
    ∧ dispatchVerify (some (.async false code name)) ≠ .proceed := by
  intro code name
  refine ⟨rfl, rfl, by decide, by simp [dispatchVerify]⟩

/-- C7: calling `Server.close()` twice has the same effect on the engine
group as calling it once: the model of `close` is total (no throw), the
second call performs no `native.server.group.close` at all and leaves the
state exactly as the first call left it, and the first call releases the
group handle exactly once (precisely when one was present). -/
theorem claim_C7_close_idempotent :
    ∀ (s : ServerState) (cb1 cb2 : Bool),
    ((s.closeServer cb1).1.closeServer cb2).2.groupCloseCalls = []
    ∧ ((s.closeServer cb1).1.closeServer cb2).1 = (s.closeServer cb1).1
    ∧ (s.closeServer cb1).2.groupCloseCalls
        = (match s.serverGroup with | some g => [g] | none => [])
    ∧ (s.closeServer cb1).1.serverGroup = none := by
  intro s cb1 cb2
  cases h : s.serverGroup <;>
    simp_all [ServerState.closeServer]

/-- C8: for both the server group's and the client group's engine
disconnection callback, the user close handler is not invoked during the
engine's turn (the turn's log holds only the handle invalidation and the
user-data clearing); it runs only when the next-tick queue is drained, and
at that moment the engine handle is already absent — the handler observes
`readyState = CLOSED` — and `clearUserData` has already happened (it
precedes the handler invocation in the log).  The two handler bodies are
textually identical, so one definition models both. -/
theorem claim_C8_disconnection_deferred :
    ∀ (ws : WS) (ext code : Nat) (message : String),
    (onDisconnectionBody { ws := ws, tickQueue := [], log := [] } ext code message).log
      = [.setExternalNull, .clearUserData ext]
    ∧ (onDisconnectionBody { ws := ws, tickQueue := [], log := [] } ext code message).ws.external
      = none
    ∧ (runTicks (onDisconnectionBody { ws := ws, tickQueue := [], log := [] } ext code message)).log
      = [.setExternalNull, .clearUserData ext, .invokeCloseHandler CLOSED code message] := by
  intro ws ext code message
  refine ⟨rfl, rfl, ?_⟩
  simp [onDisconnectionBody, runTicks, runTasks, WS.readyState, CLOSED]

/-- C9: the claim says a native socket arriving at `handleUpgrade` while
the server group is open completes the upgrade via `native.upgrade`
without error; the code does record the request and install the upgrade
callback, but then throws a `ReferenceError` — `secKey` is declared only
in the non-native branch — so `native.upgrade` is never reached. -/
theorem claim_C9_native_branch_reference_error :
    handleUpgrade (some 1) true
      { secWebSocketKey := some "0123456789abcdef01234567"
        secWebSocketExtensions := none, secWebSocketProtocol := none }
      { isNative := true, external := some 7, ssl := false
        handlePresent := true, fd := 3 }
      = { actions := [.setUpgradeReq, .setUpgradeCallback]
          err := some .secKeyNotDefined } := rfl

end UWS
